import Mathlib

/-!
# A verification development for the `vect` package (2-D vectors)

The Go package `vect` defines the value type `V` (a pair of `float64`
coordinates), a library of closed-form operations on it (`vect.go`) and a JSON
adapter (`json.go`).

## Embedding

* `float64` is a type parameter `F` of the definitions, which use nothing of it but
  the operations of the source (`+ - * /`, unary minus, `<`, the constants).  The
  body of each function is transcribed once and read at two types:
  - at `F = ℝ`, in exact real arithmetic, where rounding, overflow, underflow,
    signed zeros, NaN and the infinities do not exist;
  - at `F = Binary64`, the IEEE 754 binary64 numbers the code runs on, with round
    to nearest even after every operation.
  The doc comment of every theorem says which of the two it is about: a statement
  "in exact real arithmetic" says nothing about rounded results.
* The functions of Go's `math` package that the source calls (`math.Sqrt`,
  `math.Cos`, `math.Sin`, `math.Atan2`) are taken as explicit function arguments.
  In exact arithmetic they are `Real.sqrt`, `Real.cos`, `Real.sin`, and
  `math.Atan2(y, x)` is the argument of the complex number `x + y i`; in binary64
  `math.Sqrt` is the correctly rounded `Binary64.sqrt`.  `math.Min` and `math.Max`
  are the `min`/`max` of the order.
* `complex128` is embedded as `ℂ`, so that `Rotate` can be compared with the
  complex multiplication of Mathlib.
* Every operation exists in the source twice, as a free function and as a
  method that only delegates to it; the free function is embedded.
-/

namespace vect

/-! ## vect.go -/

/-- A V represents vector of 2 coordinates (`type V struct{ X, Y float64 }`). -/
structure V (F : Type) where
  X : F
  Y : F
  deriving DecidableEq, Repr

variable {F : Type} [Zero F] [One F] [NatCast F] [HAdd F F F] [HSub F F F] [Mul F] [Div F]
  [Neg F] [HPow F ℕ F] [LT F] [DecidableRel (LT.lt : F → F → Prop)]

/-- Go: `var Origin = V{0, 0}`. -/
def Origin : V F := ⟨0, 0⟩

/-- Go: `math.SmallestNonzeroFloat64 = 0x1p-1022 * 0x1p-52`, that is `2^(-1074)`. -/
def SmallestNonzeroFloat64 (F : Type) [One F] [NatCast F] [Mul F] [Div F] [HPow F ℕ F] : F :=
  (1 / 2 ^ 1022) * (1 / 2 ^ 52)

/-- Go: `math.MaxFloat64 = 0x1p1023 * (1 + (1 - 0x1p-52))`, the largest finite
`float64`. -/
def MaxFloat64 (F : Type) [One F] [NatCast F] [HAdd F F F] [HSub F F F] [Mul F] [Div F]
    [HPow F ℕ F] : F :=
  2 ^ 1023 * (1 + (1 - 1 / 2 ^ 52))

/-- FClamp returns val clamped between min and max. -/
def FClamp (val min max : F) : F :=
  if val < min then min
  else if val > max then max
  else val

/-- Go: `func New(x, y float64) V`. -/
def New (x y : F) : V F := ⟨x, y⟩

/-- Go: `func Equal(a, b V) bool { return a == b }`. -/
def Equal [DecidableEq F] (a b : V F) : Bool := decide (a = b)

/-- Go: `func Add(a, b V) V`. -/
def Add (a b : V F) : V F := ⟨a.X + b.X, a.Y + b.Y⟩

/-- Go: `func Sub(a, b V) V`. -/
def Sub (a b : V F) : V F := ⟨a.X - b.X, a.Y - b.Y⟩

/-- Go: `func Negate(v V) V`. -/
def Negate (v : V F) : V F := ⟨-v.X, -v.Y⟩

/-- Go: `func Mult(v V, s float64) V`. -/
def Mult (v : V F) (s : F) : V F := ⟨v.X * s, v.Y * s⟩

/-- Go: `func Dot(a, b V) float64`. -/
def Dot (a b : V F) : F := (a.X * b.X) + (a.Y * b.Y)

/-- Go: `func Cross(a, b V) float64`. -/
def Cross (a b : V F) : F := (a.X * b.Y) - (a.Y * b.X)

/-- Go: `func CrossVF(v V, s float64) V`. -/
def CrossVF (v : V F) (s : F) : V F := ⟨s * v.Y, -s * v.X⟩

/-- Go: `func CrossFV(s float64, v V) V`. -/
def CrossFV (s : F) (v : V F) : V F := ⟨-s * v.Y, s * v.X⟩

/-- Go: `func Perp(v V) V`. -/
def Perp (v : V F) : V F := ⟨-v.Y, v.X⟩

/-- Go: `func Rperp(v V) V`. -/
def Rperp (v : V F) : V F := ⟨v.Y, -v.X⟩

/-- Go: `func Project(a, b V) V`. -/
def Project (a b : V F) : V F := Mult b (Dot a b / Dot b b)

/-- Go: `func ForAngle(angle float64) V`; `cos`, `sin` stand for `math.Cos`, `math.Sin`. -/
def ForAngle (cos sin : F → F) (angle : F) : V F := ⟨cos angle, sin angle⟩

/-- Go: `func ToAngle(v V) float64`; `atan2` stands for `math.Atan2`, called as
`math.Atan2(v.X, v.Y)`. -/
def ToAngle (atan2 : F → F → F) (v : V F) : F := atan2 v.X v.Y

/-- Go: `func Rotate(a, b V) V`. -/
def Rotate (a b : V F) : V F := ⟨a.X * b.X - a.Y * b.Y, a.X * b.Y + a.Y * b.X⟩

/-- Go: `func Unrotate(a, b V) V`. -/
def Unrotate (a b : V F) : V F := ⟨a.X * b.X + a.Y * b.Y, a.Y * b.X - a.X * b.Y⟩

/-- Go: `func DistanceSquared(a, b V) float64`. -/
def DistanceSquared (a b : V F) : F :=
  (a.X - b.X) * (a.X - b.X) + (a.Y - b.Y) * (a.Y - b.Y)

/-- Go: `func Distance(a, b V) float64`; `sqrt` stands for `math.Sqrt`. -/
def Distance (sqrt : F → F) (a b : V F) : F := sqrt (DistanceSquared a b)

/-- Go: `func LengthSquared(v V) float64 { return DistanceSquared(v, V{}) }`. -/
def LengthSquared (v : V F) : F := DistanceSquared v ⟨0, 0⟩

/-- Go: `func Length(v V) float64 { return Distance(v, V{}) }`. -/
def Length (sqrt : F → F) (v : V F) : F := Distance sqrt v ⟨0, 0⟩

/-- Go: `func Lerp(a, b V, t float64) V`. -/
def Lerp (a b : V F) (t : F) : V F := ⟨a.X + (a.X - b.X) * t, a.Y + (a.Y - b.Y) * t⟩

/-- Go: `func Normalize(v V) V`. -/
def Normalize (sqrt : F → F) (v : V F) : V F :=
  let f := 1 / (Length sqrt v + SmallestNonzeroFloat64 F)
  Mult v f

/-- Go: `func Clamp(v V, ln float64) V`. -/
def Clamp (sqrt : F → F) (v : V F) (ln : F) : V F :=
  if Dot v v > ln * ln then Mult (Normalize sqrt v) ln
  else v

/-- Go: `func Min(a, b V) V`. -/
def Min {F : Type} [LinearOrder F] (a b : V F) : V F := ⟨min a.X b.X, min a.Y b.Y⟩

/-- Go: `func Max(a, b V) V`. -/
def Max {F : Type} [LinearOrder F] (a b : V F) : V F := ⟨max a.X b.X, max a.Y b.Y⟩

/-- Go: `func FromComplex(c complex128) V`, `V{real(c), imag(c)}`; `complex128` is
embedded as `ℂ`, the pair of a real and an imaginary part, as `float64` is as `ℝ`. -/
def FromComplex (c : ℂ) : V ℝ := ⟨c.re, c.im⟩

/-- Go: `func ToComplex(v V) complex128`, `complex(v.X, v.Y)`. -/
def ToComplex (v : V ℝ) : ℂ := ⟨v.X, v.Y⟩

/-! ## json.go

`json.go` moves a vector through Go's `encoding/json`.  No arithmetic happens
there, so this part keeps the one distinction of `float64` that the encoder
makes: a value is a number or it is NaN, +Inf or -Inf (`Float64`).  The byte
slices are embedded by what the JSON scanner makes of them (`Data`): no JSON
text at all, or the text of one JSON value; a number literal within the range of
`float64` is embedded by the `float64` it denotes (the value `strconv.ParseFloat`
gives it), a number literal outside that range by its text.  The functions `jsonMarshalArray2`, `jsonUnmarshalArray2` and
`jsonUnmarshalStructXY` embed `json.Marshal` and `json.Unmarshal` of the standard
library at the three Go types `json.go` uses them with, following the rules
documented for `encoding/json`. -/

/-- The values of a Go `float64` as `encoding/json` distinguishes them: a number
`num x`, or one of the three values that are not numbers. -/
inductive Float64 (F : Type) where
  | num (x : F)
  | NaN
  | posInf
  | negInf
  deriving DecidableEq, Repr

/-- Go: `math.IsInf(f, 0) || math.IsNaN(f)` is false. -/
def Float64.isFinite {F : Type} : Float64 F → Bool
  | .num _ => true
  | _ => false

/-- A JSON value (RFC 8259); object members are kept in the order of the text.
`number x` is a number literal that `strconv.ParseFloat` converts without error,
`x` being the `float64` it returns (the nearest one); `bigNumber s` is a number
literal, of text `s`, whose value is out of the range of `float64` (such as
`1e400`), for which `strconv.ParseFloat` reports a range error. -/
inductive Value (F : Type) where
  | null
  | bool (b : Bool)
  | number (x : F)
  | bigNumber (s : String)
  | string (s : String)
  | array (elems : List (Value F))
  | object (members : List (String × Value F))

/-- The word `encoding/json` uses for a JSON value in an `UnmarshalTypeError`. -/
def Value.kind {F : Type} : Value F → String
  | .null => "null"
  | .bool _ => "bool"
  | .number _ => "number"
  | .bigNumber _ => "number"
  | .string _ => "string"
  | .array _ => "array"
  | .object _ => "object"

/-- The contents of a byte slice given to `json.Unmarshal` or returned by
`json.Marshal`: bytes that are not a JSON text, or the text of a JSON value. -/
inductive Data (F : Type) where
  | invalid
  | text (j : Value F)

/-- The errors of `encoding/json` that can occur at the types used by `json.go`:
`*json.SyntaxError`, `*json.UnmarshalTypeError` (the JSON value's kind, the Go type
it was to be stored in, the struct field if any) and `*json.UnsupportedValueError`. -/
inductive JsonError where
  | SyntaxError
  | UnmarshalTypeError (value : String) (typ : String) (field : String)
  | UnsupportedValueError (str : String)
  deriving DecidableEq, Repr

/-- The decoder's `saveError`: the earliest error is the one reported. -/
def saveError (saved new : Option JsonError) : Option JsonError :=
  match saved with
  | some e => some e
  | none => new

/-- The encoder on one `float64`: NaN and the infinities are unsupported values. -/
def encodeFloat64 : Float64 F → Except JsonError (Value F)
  | .num x => .ok (.number x)
  | .NaN => .error (.UnsupportedValueError "NaN")
  | .posInf => .error (.UnsupportedValueError "+Inf")
  | .negInf => .error (.UnsupportedValueError "-Inf")

/-- Go: `json.Marshal(&[2]float64{a0, a1})`: a 2-element JSON array, or the error
of the first element that cannot be encoded. -/
def jsonMarshalArray2 (a : Float64 F × Float64 F) : Except JsonError (Data F) :=
  match encodeFloat64 a.1 with
  | .error e => .error e
  | .ok j0 =>
    match encodeFloat64 a.2 with
    | .error e => .error e
    | .ok j1 => .ok (.text (.array [j0, j1]))

/-- The decoder storing one JSON value into a `float64` variable that holds `cur`
(`field` names the struct field, if any): a number within the range of `float64`
is stored, `null` has no effect, a number out of that range and any other value are
a type error and leave the variable as it is. -/
def decodeFloat64 (field : String) (cur : Float64 F) : Value F → Float64 F × Option JsonError
  | .number x => (.num x, none)
  | .null => (cur, none)
  | .bigNumber s => (cur, some (.UnmarshalTypeError ("number " ++ s) "float64" field))
  | j => (cur, some (.UnmarshalTypeError j.kind "float64" field))

/-- The decoder at index `i` of a Go array of `float64` while reading JSON array
`elems`: the element there is decoded into the slot, and a slot past the end of the
JSON array is set to zero. -/
def decodeSlot (elems : List (Value F)) (i : Nat) (cur : Float64 F) :
    Float64 F × Option JsonError :=
  match elems.get? i with
  | some j => decodeFloat64 "" cur j
  | none => (.num 0, none)

/-- Go: `json.Unmarshal(data, &vectData)` with `vectData` of type `[2]float64`.
Returns the array afterwards and the error.  A JSON array is decoded element by
element, elements of index 2 and more are skipped and missing ones set to zero;
`null` has no effect; any other JSON value is a type error. -/
def jsonUnmarshalArray2 (data : Data F) (vectData : Float64 F × Float64 F) :
    (Float64 F × Float64 F) × Option JsonError :=
  match data with
  | .invalid => (vectData, some .SyntaxError)
  | .text (.array elems) =>
    let r0 := decodeSlot elems 0 vectData.1
    let r1 := decodeSlot elems 1 vectData.2
    ((r0.1, r1.1), saveError r0.2 r1.2)
  | .text .null => (vectData, none)
  | .text j => (vectData, some (.UnmarshalTypeError j.kind "[2]float64" ""))

/-- The decoder on one member of a JSON object read into `struct{ X, Y float64 }`:
a key is matched to a field by name, ignoring case; a member with another key is
skipped. -/
def decodeMember (st : (Float64 F × Float64 F) × Option JsonError) (kv : String × Value F) :
    (Float64 F × Float64 F) × Option JsonError :=
  if kv.1 = "X" ∨ kv.1 = "x" then
    let r := decodeFloat64 "X" st.1.1 kv.2
    ((r.1, st.1.2), saveError st.2 r.2)
  else if kv.1 = "Y" ∨ kv.1 = "y" then
    let r := decodeFloat64 "Y" st.1.2 kv.2
    ((st.1.1, r.1), saveError st.2 r.2)
  else st

/-- Go: `json.Unmarshal(data, &vectData)` with `vectData` of type
`struct{ X, Y float64 }`, as the pair of its fields.  The members of a JSON object
are decoded in order; `null` has no effect; any other JSON value is a type error. -/
def jsonUnmarshalStructXY (data : Data F) (vectData : Float64 F × Float64 F) :
    (Float64 F × Float64 F) × Option JsonError :=
  match data with
  | .invalid => (vectData, some .SyntaxError)
  | .text (.object members) => members.foldl decodeMember (vectData, none)
  | .text .null => (vectData, none)
  | .text j => (vectData, some (.UnmarshalTypeError j.kind "struct \x7b X float64; Y float64 \x7d" ""))

/-- Go: `func (v V) MarshalJSON() ([]byte, error)`. -/
def MarshalJSON (v : V (Float64 F)) : Except JsonError (Data F) :=
  jsonMarshalArray2 (v.X, v.Y)

/-- Go: `func (v *V) UnmarshalJSON(data []byte) error`, as a function from the
receiver before the call to the receiver after it and the error returned
(`none` for `nil`). -/
def UnmarshalJSON (v : V (Float64 F)) (data : Data F) : V (Float64 F) × Option JsonError :=
  let vectData : Float64 F × Float64 F := (.num 0, .num 0)
  -- try unmarshalling array form
  match jsonUnmarshalArray2 data vectData with
  | (_, some _) =>
    -- try other form
    let vectData : Float64 F × Float64 F := (.num 0, .num 0)
    match jsonUnmarshalStructXY data vectData with
    | (_, some err) => (v, some err)
    | (vectData, none) => (⟨vectData.1, vectData.2⟩, none)
  | (vectData, none) => (⟨vectData.1, vectData.2⟩, none)

/-- A JSON number literal, within the range of `float64` or not. -/
def Value.isNumber {F : Type} : Value F → Bool
  | .number _ => true
  | .bigNumber _ => true
  | _ => false

/-- A JSON number literal out of the range of `float64`. -/
def Value.isBigNumber {F : Type} : Value F → Bool
  | .bigNumber _ => true
  | _ => false

/-- From the spec's words: the array form, "a 2-element ordered array `[x, y]`". -/
def isArrayForm {F : Type} : Data F → Bool
  | .text (.array [a, b]) => a.isNumber && b.isNumber
  | _ => false

/-- From the spec's words: the keyed-object form, "a keyed object with fields named
`X` and `Y`" (in either order). -/
def isKeyedObjectForm {F : Type} : Data F → Bool
  | .text (.object [(k0, a), (k1, b)]) =>
    a.isNumber && b.isNumber && decide ((k0 = "X" ∧ k1 = "Y") ∨ (k0 = "Y" ∧ k1 = "X"))
  | _ => false

/-- An array with an element, or an object with a member, that is a number out of
the range of `float64`. -/
def hasBigNumber {F : Type} : Data F → Bool
  | .text (.array elems) => elems.any Value.isBigNumber
  | .text (.object members) => members.any (fun kv => kv.2.isBigNumber)
  | _ => false

/-- A JSON value that the decoder stores in a `float64` without a type error. -/
def Value.isNumberOrNull {F : Type} : Value F → Bool
  | .number _ => true
  | .null => true
  | _ => false

/-- A member of a JSON object whose key names the field `X` or the field `Y`. -/
def namesField {F : Type} (kv : String × Value F) : Bool :=
  kv.1 = "X" ∨ kv.1 = "x" ∨ kv.1 = "Y" ∨ kv.1 = "y"

/-! ## IEEE 754 binary64

The second reading of `float64`: the type the code runs on.  `Binary64` holds the
finite binary64 numbers with their signed zeros, the two infinities and NaN; every
operation computes the exact result of its operands and rounds it once, to
nearest, ties to even, with gradual underflow and overflow to infinity.  Each
operation of the source is rounded on its own (no fused multiply-add), as the Go
compiler does on amd64.  The definitions of `vect.go` above are instantiated at
`Binary64` with `Binary64.sqrt` for `math.Sqrt`. -/

/-- An IEEE 754 binary64 datum.  `finite neg m e` is the number `(-1)^neg * m * 2^e`,
kept in the one form with `m < 2^53`, `-1074 ≤ e ≤ 971` and `2^52 ≤ m` unless
`e = -1074`; the zeros are `finite neg 0 (-1074)`. -/
inductive Binary64 where
  | finite (neg : Bool) (m : Nat) (e : Int)
  | inf (neg : Bool)
  | nan
  deriving DecidableEq, Repr

namespace Binary64

/-- The least `i` from `start` on with `n < 2^(2^i)` (`fuel` bounds the search). -/
def sizeBound (n : Nat) : Nat → Nat → Nat
  | 0, i => i
  | fuel + 1, i => if n < 2 ^ (2 ^ i) then i else sizeBound n fuel (i + 1)

/-- Binary search for the largest `s` with `2^s ≤ n`, among `acc ≤ s < acc + 2^i`. -/
def log2Aux (n : Nat) : Nat → Nat → Nat
  | 0, acc => acc
  | i + 1, acc => if 2 ^ (acc + 2 ^ i) ≤ n then log2Aux n i (acc + 2 ^ i) else log2Aux n i acc

/-- The number of binary digits of `n`: `2^(size n - 1) ≤ n < 2^(size n)` for `n > 0`. -/
def size (n : Nat) : Nat :=
  if n = 0 then 0 else log2Aux n (sizeBound n n 0) 0 + 1

/-- Rounding to nearest, ties to even: the binary64 nearest to the rational
`(-1)^neg * n / d` (`d > 0`).  With `2^e ≤ n/d < 2^(e+1)` the result is a multiple
`k` of the quantum `2^q`, `q = max (e - 52) (-1074)`; a result of `2^1024` or more
is an infinity. -/
def round (neg : Bool) (n d : Nat) : Binary64 :=
  if n = 0 then finite neg 0 (-1074) else
  let e0 : Int := (size n : Int) - (size d : Int)
  let e : Int := if n * 2 ^ (-e0).toNat < d * 2 ^ e0.toNat then e0 - 1 else e0
  let q : Int := max (e - 52) (-1074)
  let N := n * 2 ^ (-q).toNat
  let D := d * 2 ^ q.toNat
  let f := N / D
  let r := N % D
  let k := if 2 * r < D then f else if D < 2 * r then f + 1 else if f % 2 = 0 then f else f + 1
  let m := if k = 2 ^ 53 then 2 ^ 52 else k
  let q := if k = 2 ^ 53 then q + 1 else q
  if q > 971 then inf neg else finite neg m q

/-- The numerator of `m * 2^e` over the denominator `den e`. -/
def num (m : Nat) (e : Int) : Nat := m * 2 ^ e.toNat

/-- The denominator of `m * 2^e`, a power of two. -/
def den (e : Int) : Nat := 2 ^ (-e).toNat

/-- Unary minus: the sign bit is flipped. -/
def neg : Binary64 → Binary64
  | finite s m e => finite (!s) m e
  | inf s => inf (!s)
  | nan => nan

/-- Absolute value (`math.Abs`): the sign bit is cleared. -/
def abs : Binary64 → Binary64
  | finite _ m e => finite false m e
  | inf _ => inf false
  | nan => nan

/-- Addition.  An exact zero sum is `+0`, unless both operands are negative zeros. -/
def add : Binary64 → Binary64 → Binary64
  | finite s m e, finite t k f =>
    let a : Int := if s then -(num m e * den f : Nat) else (num m e * den f : Nat)
    let b : Int := if t then -(num k f * den e : Nat) else (num k f * den e : Nat)
    if a + b = 0 then finite (s && t) 0 (-1074)
    else round (decide (a + b < 0)) (a + b).natAbs (den e * den f)
  | inf s, inf t => if s = t then inf s else nan
  | inf s, finite _ _ _ => inf s
  | finite _ _ _, inf t => inf t
  | _, _ => nan

/-- Subtraction, `x + (-y)`. -/
def sub (x y : Binary64) : Binary64 := add x (neg y)

/-- Multiplication; `0 * ∞` is NaN. -/
def mul : Binary64 → Binary64 → Binary64
  | finite s m e, finite t k f => round (s != t) (num m e * num k f) (den e * den f)
  | inf s, finite t k _ => if k = 0 then nan else inf (s != t)
  | finite s m _, inf t => if m = 0 then nan else inf (s != t)
  | inf s, inf t => inf (s != t)
  | _, _ => nan

/-- Division; `0 / 0` and `∞ / ∞` are NaN, a non-zero number over zero is an infinity. -/
def div : Binary64 → Binary64 → Binary64
  | finite s m e, finite t k f =>
    if k = 0 then (if m = 0 then nan else inf (s != t))
    else round (s != t) (num m e * den f) (den e * num k f)
  | finite s _ _, inf t => finite (s != t) 0 (-1074)
  | inf s, finite t _ _ => inf (s != t)
  | _, _ => nan

/-- Binary search for the integer square root: digit `b` is set when the square
still fits. -/
def isqrtAux (n : Nat) : Nat → Nat → Nat
  | 0, r => r
  | b + 1, r => if (r + 2 ^ b) * (r + 2 ^ b) ≤ n then isqrtAux n b (r + 2 ^ b) else isqrtAux n b r

/-- The integer square root, the largest `r` with `r * r ≤ n`. -/
def isqrt (n : Nat) : Nat := isqrtAux n (size n / 2 + 1) 0

/-- The correctly rounded square root (`math.Sqrt`).  The operand is written
`M * 2^(2h)` with `M ≥ 2^128`; with `r = isqrt M`, the root is `r * 2^h` when
`r * r = M`, and otherwise lies strictly between `r * 2^h` and `(r+1) * 2^h`, where
it rounds as `(2r+1) * 2^(h-1)` does. -/
def sqrt : Binary64 → Binary64
  | finite s m e =>
    if m = 0 then finite s 0 (-1074)
    else if s then nan
    else
      let M := if e % 2 = 0 then m * 4 ^ 64 else 2 * m * 4 ^ 64
      let h : Int := (if e % 2 = 0 then e else e - 1) / 2 - 64
      let r := isqrt M
      if r * r = M then round false (r * 2 ^ h.toNat) (2 ^ (-h).toNat)
      else round false ((2 * r + 1) * 2 ^ (h - 1).toNat) (2 ^ (-(h - 1)).toNat)
  | inf false => inf false
  | _ => nan

/-- The comparison `<`: false when an operand is NaN; the two zeros are equal. -/
def lt : Binary64 → Binary64 → Bool
  | finite s m e, finite t k f =>
    let a : Int := if s then -(num m e * den f : Nat) else (num m e * den f : Nat)
    let b : Int := if t then -(num k f * den e : Nat) else (num k f * den e : Nat)
    decide (a < b)
  | inf s, inf t => s && !t
  | inf s, finite _ _ _ => s
  | finite _ _ _, inf t => !t
  | _, _ => false

/-- The comparison `==` of Go: false when an operand is NaN; the two zeros are equal. -/
def eq : Binary64 → Binary64 → Bool
  | finite s m e, finite t k f => (m = 0 && k = 0) || (s = t && m = k && e = f)
  | inf s, inf t => s = t
  | _, _ => false

/-- The comparison `<=`: `<` or `==`. -/
def le (x y : Binary64) : Bool := lt x y || eq x y

/-- Powers by repeated multiplication (used for the constants `2^n` only). -/
def npow (x : Binary64) : Nat → Binary64
  | 0 => finite false (2 ^ 52) (-52)
  | n + 1 => mul (npow x n) x

end Binary64

instance : Zero Binary64 := ⟨.finite false 0 (-1074)⟩

instance : One Binary64 := ⟨.finite false (2 ^ 52) (-52)⟩

instance : NatCast Binary64 := ⟨fun n => Binary64.round false n 1⟩

instance : OfScientific Binary64 :=
  ⟨fun m s e => if s then Binary64.round false m (10 ^ e) else Binary64.round false (m * 10 ^ e) 1⟩

instance : HAdd Binary64 Binary64 Binary64 := ⟨Binary64.add⟩

instance : HSub Binary64 Binary64 Binary64 := ⟨Binary64.sub⟩

instance : Mul Binary64 := ⟨Binary64.mul⟩

instance : Div Binary64 := ⟨Binary64.div⟩

instance : Neg Binary64 := ⟨Binary64.neg⟩

instance : HPow Binary64 ℕ Binary64 := ⟨Binary64.npow⟩

instance : LT Binary64 := ⟨fun x y => Binary64.lt x y = true⟩

instance : LE Binary64 := ⟨fun x y => Binary64.le x y = true⟩

instance (x y : Binary64) : Decidable (x < y) :=
  inferInstanceAs (Decidable (Binary64.lt x y = true))

instance (x y : Binary64) : Decidable (x ≤ y) :=
  inferInstanceAs (Decidable (Binary64.le x y = true))

/-- Go's `math.Cos` at the argument `3`, where it returns `-0.9899924966004454`, the
`float64` nearest to `cos 3`; no other argument is tabulated (NaN stands for them). -/
def cosAt3 (x : Binary64) : Binary64 :=
  if x = 3 then -0.9899924966004454 else .nan

/-- Go's `math.Sin` at the argument `3`, where it returns `0.1411200080598672`, the
`float64` nearest to `sin 3`; no other argument is tabulated (NaN stands for them). -/
def sinAt3 (x : Binary64) : Binary64 :=
  if x = 3 then 0.1411200080598672 else .nan

/-! ## Auxiliary facts about the embedded operations (exact real arithmetic) -/

theorem distanceSquared_nonneg (a b : V ℝ) : 0 ≤ DistanceSquared a b := by
  unfold DistanceSquared
  nlinarith [mul_self_nonneg (a.X - b.X), mul_self_nonneg (a.Y - b.Y)]

theorem smallestNonzeroFloat64_pos : 0 < SmallestNonzeroFloat64 ℝ := by
  unfold SmallestNonzeroFloat64
  positivity

theorem length_nonneg (v : V ℝ) : 0 ≤ Length Real.sqrt v := by
  unfold Length Distance
  exact Real.sqrt_nonneg _

theorem length_mul_self (v : V ℝ) : Length Real.sqrt v * Length Real.sqrt v = Dot v v := by
  unfold Length Distance
  rw [Real.mul_self_sqrt (distanceSquared_nonneg _ _)]
  simp [DistanceSquared, Dot]

theorem length_mult (v : V ℝ) (f : ℝ) (hf : 0 ≤ f) :
    Length Real.sqrt (Mult v f) = Length Real.sqrt v * f := by
  have h : DistanceSquared (Mult v f) ⟨0, 0⟩ = DistanceSquared v ⟨0, 0⟩ * (f * f) := by
    simp only [DistanceSquared, Mult]
    ring
  unfold Length Distance
  rw [h, Real.sqrt_mul (distanceSquared_nonneg _ _), Real.sqrt_mul_self hf]

theorem length_pos_of_ne_origin (v : V ℝ) (hv : v ≠ Origin) : 0 < Length Real.sqrt v := by
  unfold Length Distance
  apply Real.sqrt_pos.mpr
  obtain ⟨x, y⟩ := v
  have hxy : x ≠ 0 ∨ y ≠ 0 := by
    by_contra hc
    push_neg at hc
    exact hv (by simp [Origin, hc.1, hc.2])
  simp only [DistanceSquared, sub_zero]
  rcases hxy with hx | hy
  · have := mul_self_pos.mpr hx
    nlinarith [mul_self_nonneg y]
  · have := mul_self_pos.mpr hy
    nlinarith [mul_self_nonneg x]

theorem length_normalize (v : V ℝ) :
    Length Real.sqrt (Normalize Real.sqrt v)
      = Length Real.sqrt v / (Length Real.sqrt v + SmallestNonzeroFloat64 ℝ) := by
  have hpos : 0 < Length Real.sqrt v + SmallestNonzeroFloat64 ℝ :=
    add_pos_of_nonneg_of_pos (length_nonneg v) smallestNonzeroFloat64_pos
  unfold Normalize
  rw [length_mult v _ (by positivity)]
  ring

/-! ## Auxiliary facts about the embedded decoder -/

theorem saveError_eq_none (a b : Option JsonError) :
    saveError a b = none ↔ a = none ∧ b = none := by
  cases a <;> simp [saveError]

theorem decodeFloat64_snd_eq_none (field : String) (cur : Float64 ℝ) (j : Value ℝ) :
    (decodeFloat64 field cur j).2 = none ↔ j.isNumberOrNull = true := by
  cases j <;> simp [decodeFloat64, Value.isNumberOrNull]

theorem decodeSlot_snd_eq_none (elems : List (Value ℝ)) (i : Nat) (cur : Float64 ℝ) :
    (decodeSlot elems i cur).2 = none
      ↔ ∀ j, elems.get? i = some j → j.isNumberOrNull = true := by
  unfold decodeSlot
  cases h : elems.get? i with
  | none => simp
  | some j => simp [decodeFloat64_snd_eq_none]

theorem decodeMember_snd_eq_none (st : (Float64 ℝ × Float64 ℝ) × Option JsonError)
    (kv : String × Value ℝ) :
    (decodeMember st kv).2 = none
      ↔ st.2 = none ∧ (namesField kv = true → kv.2.isNumberOrNull = true) := by
  unfold decodeMember
  split_ifs with hX hY
  · have hn : namesField kv = true := by
      rcases hX with h | h <;> simp [namesField, h]
    simp [saveError_eq_none, decodeFloat64_snd_eq_none, hn]
  · have hn : namesField kv = true := by
      rcases hY with h | h <;> simp [namesField, h]
    simp [saveError_eq_none, decodeFloat64_snd_eq_none, hn]
  · have hn : namesField kv = false := by
      push_neg at hX hY
      simp [namesField, hX.1, hX.2, hY.1, hY.2]
    simp [hn]

theorem foldl_decodeMember_snd_eq_none (members : List (String × Value ℝ))
    (st : (Float64 ℝ × Float64 ℝ) × Option JsonError) :
    (members.foldl decodeMember st).2 = none
      ↔ st.2 = none ∧ ∀ kv ∈ members, namesField kv = true → kv.2.isNumberOrNull = true := by
  induction members generalizing st with
  | nil => simp
  | cons kv rest ih =>
    rw [List.foldl_cons, ih, decodeMember_snd_eq_none]
    simp only [List.mem_cons, forall_eq_or_imp]
    tauto

theorem jsonUnmarshalArray2_snd_eq_none (data : Data ℝ) (t : Float64 ℝ × Float64 ℝ) :
    (jsonUnmarshalArray2 data t).2 = none
      ↔ data = .text .null
        ∨ ∃ elems, data = .text (.array elems)
            ∧ (∀ j, elems.get? 0 = some j → j.isNumberOrNull = true)
            ∧ (∀ j, elems.get? 1 = some j → j.isNumberOrNull = true) := by
  cases data with
  | invalid => simp [jsonUnmarshalArray2]
  | text j =>
    cases j <;>
      simp [jsonUnmarshalArray2, saveError_eq_none, decodeSlot_snd_eq_none]

theorem jsonUnmarshalStructXY_snd_eq_none (data : Data ℝ) (t : Float64 ℝ × Float64 ℝ) :
    (jsonUnmarshalStructXY data t).2 = none
      ↔ data = .text .null
        ∨ ∃ members, data = .text (.object members)
            ∧ ∀ kv ∈ members, namesField kv = true → kv.2.isNumberOrNull = true := by
  cases data with
  | invalid => simp [jsonUnmarshalStructXY]
  | text j =>
    cases j <;>
      simp [jsonUnmarshalStructXY, foldl_decodeMember_snd_eq_none]

/-- The control flow of `UnmarshalJSON`: the array attempt decides when it has no
error, otherwise the object attempt does. -/
theorem unmarshalJSON_eq (v : V (Float64 ℝ)) (data : Data ℝ) :
    UnmarshalJSON v data
      = if (jsonUnmarshalArray2 data (.num 0, .num 0)).2 = none then
          (⟨(jsonUnmarshalArray2 data (.num 0, .num 0)).1.1,
            (jsonUnmarshalArray2 data (.num 0, .num 0)).1.2⟩, none)
        else if (jsonUnmarshalStructXY data (.num 0, .num 0)).2 = none then
          (⟨(jsonUnmarshalStructXY data (.num 0, .num 0)).1.1,
            (jsonUnmarshalStructXY data (.num 0, .num 0)).1.2⟩, none)
        else (v, (jsonUnmarshalStructXY data (.num 0, .num 0)).2) := by
  unfold UnmarshalJSON
  rcases h1 : jsonUnmarshalArray2 data (.num 0, .num 0) with ⟨a, e1⟩
  cases e1 with
  | none => simp [h1]
  | some e =>
    rcases h2 : jsonUnmarshalStructXY data (.num 0, .num 0) with ⟨b, e2⟩
    cases e2 <;> simp [h1, h2]

theorem unmarshalJSON_of_isArrayForm (v : V (Float64 ℝ)) (data : Data ℝ)
    (h : isArrayForm data = true) (hb : hasBigNumber data = false) :
    (UnmarshalJSON v data).2 = none := by
  unfold isArrayForm at h
  split at h
  · rename_i a b
    cases a <;> cases b <;>
      simp [Value.isNumber, hasBigNumber, Value.isBigNumber] at h hb
    rfl
  · simp at h

theorem unmarshalJSON_of_isKeyedObjectForm (v : V (Float64 ℝ)) (data : Data ℝ)
    (h : isKeyedObjectForm data = true) (hb : hasBigNumber data = false) :
    (UnmarshalJSON v data).2 = none := by
  unfold isKeyedObjectForm at h
  split at h
  · rename_i k0 a k1 b
    cases a <;> cases b <;>
      simp [Value.isNumber, hasBigNumber, Value.isBigNumber] at h hb
    rcases h with ⟨h0, h1⟩ | ⟨h0, h1⟩ <;> subst h0 <;> subst h1 <;>
      simp [UnmarshalJSON, jsonUnmarshalArray2, jsonUnmarshalStructXY, decodeMember,
        decodeFloat64, saveError, Value.kind]
  · simp at h

/-- In exact arithmetic `Distance` is the complex modulus of the difference. -/
theorem distance_eq_abs (a b : V ℝ) :
    Distance Real.sqrt a b = Complex.abs (ToComplex a - ToComplex b) := by
  rw [Complex.abs_apply, Complex.normSq_apply]
  simp [Distance, DistanceSquared, ToComplex]

/-! ## Theorems -/

/-- C1: for every vector `v` and angle `θ`, with `u = ForAngle θ`,
`Unrotate (Rotate v u) u = v` in exact real arithmetic. -/
theorem C1_unrotate_rotate_forAngle (v : V ℝ) (θ : ℝ) :
    Unrotate (Rotate v (ForAngle Real.cos Real.sin θ)) (ForAngle Real.cos Real.sin θ) = v := by
  obtain ⟨x, y⟩ := v
  have h := Real.cos_sq_add_sin_sq θ
  simp only [Unrotate, Rotate, ForAngle, V.mk.injEq]
  constructor
  · linear_combination x * h
  · linear_combination y * h

/-- C2 (as stated, refuted): in binary64, `Clamp (3,4) 3` is
`(1.8000000000000003, 2.4000000000000004)`, of length `3.0000000000000004`, which
is not at most `3 + ε = 3`. -/
theorem C2_clamp_exceeds_bound :
    Clamp Binary64.sqrt (⟨3, 4⟩ : V Binary64) 3 = ⟨1.8000000000000003, 2.4000000000000004⟩
      ∧ Length Binary64.sqrt (Clamp Binary64.sqrt (⟨3, 4⟩ : V Binary64) 3) = 3.0000000000000004
      ∧ (3 : Binary64) + SmallestNonzeroFloat64 Binary64 = 3
      ∧ ¬ (Length Binary64.sqrt (Clamp Binary64.sqrt (⟨3, 4⟩ : V Binary64) 3)
            ≤ (3 : Binary64) + SmallestNonzeroFloat64 Binary64) := by
  decide!

/-- C2 (amended): in exact real arithmetic, for every vector `v` and every `maxLength ≥ 0`,
`Length (Clamp v maxLength) ≤ maxLength + ε`, with `ε` the epsilon guard used by
`Normalize`; in both branches of `Clamp` the length is in fact at most
`maxLength`. -/
theorem C2_clamp_length_le (v : V ℝ) (maxLength : ℝ) (h : 0 ≤ maxLength) :
    Length Real.sqrt (Clamp Real.sqrt v maxLength) ≤ maxLength + SmallestNonzeroFloat64 ℝ := by
  have hε : 0 < SmallestNonzeroFloat64 ℝ := smallestNonzeroFloat64_pos
  have hL : 0 ≤ Length Real.sqrt v := length_nonneg v
  have key : Length Real.sqrt (Clamp Real.sqrt v maxLength) ≤ maxLength := by
    unfold Clamp
    split_ifs with hc
    · rw [length_mult _ _ h, length_normalize]
      have hfrac : Length Real.sqrt v / (Length Real.sqrt v + SmallestNonzeroFloat64 ℝ) ≤ 1 := by
        rw [div_le_one (by linarith)]
        linarith
      calc Length Real.sqrt v / (Length Real.sqrt v + SmallestNonzeroFloat64 ℝ) * maxLength
          ≤ 1 * maxLength := mul_le_mul_of_nonneg_right hfrac h
        _ = maxLength := one_mul _
    · have hle : Length Real.sqrt v * Length Real.sqrt v ≤ maxLength * maxLength := by
        rw [length_mul_self]
        exact not_lt.mp hc
      by_contra hlt
      push_neg at hlt
      nlinarith
  linarith

/-- Witness of C2 at `v = (3, 4)`, `maxLength = 1`. -/
theorem C2_clamp_length_le_witness :
    (0 : ℝ) ≤ 1 ∧ Length Real.sqrt (Clamp Real.sqrt (⟨3, 4⟩ : V ℝ) 1) ≤ 1 + SmallestNonzeroFloat64 ℝ :=
  ⟨zero_le_one, C2_clamp_length_le ⟨3, 4⟩ 1 zero_le_one⟩

/-- C3 (as stated, refuted): in binary64, at the non-zero `v = (9, 40)`, of length
`41`, `Length (Normalize v)` is `0.9999999999999999`, not
`Length v / (Length v + ε) = 1`, and `|Length (Normalize v) - 1| = 1.1102230246251565e-16`
is not at most `ε / Length v = 0`; and at the non-zero `v = (1e200, 0)`, whose
squared length overflows, `Normalize v` is the zero vector. -/
theorem C3_normalize_length_rounds :
    Length Binary64.sqrt (⟨9, 40⟩ : V Binary64) = 41
      ∧ Normalize Binary64.sqrt (⟨9, 40⟩ : V Binary64)
          = ⟨0.21951219512195122, 0.975609756097561⟩
      ∧ Length Binary64.sqrt (Normalize Binary64.sqrt (⟨9, 40⟩ : V Binary64))
          = 0.9999999999999999
      ∧ Length Binary64.sqrt (⟨9, 40⟩ : V Binary64)
          / (Length Binary64.sqrt (⟨9, 40⟩ : V Binary64) + SmallestNonzeroFloat64 Binary64) = 1
      ∧ Binary64.abs (Length Binary64.sqrt (Normalize Binary64.sqrt (⟨9, 40⟩ : V Binary64)) - 1)
          = 1.1102230246251565e-16
      ∧ SmallestNonzeroFloat64 Binary64 / Length Binary64.sqrt (⟨9, 40⟩ : V Binary64) = 0
      ∧ ¬ (Binary64.abs
              (Length Binary64.sqrt (Normalize Binary64.sqrt (⟨9, 40⟩ : V Binary64)) - 1)
            ≤ SmallestNonzeroFloat64 Binary64 / Length Binary64.sqrt (⟨9, 40⟩ : V Binary64))
      ∧ Normalize Binary64.sqrt (⟨1e200, 0⟩ : V Binary64) = ⟨0, 0⟩ := by
  decide!

/-- C3 (amended): in exact real arithmetic, for every non-zero vector `v`, with `ε`
the epsilon guard,
`Length (Normalize v) = Length v / (Length v + ε)`, and therefore
`|Length (Normalize v) - 1| ≤ ε / Length v`. -/
theorem C3_normalize_length (v : V ℝ) (hv : v ≠ Origin) :
    Length Real.sqrt (Normalize Real.sqrt v)
        = Length Real.sqrt v / (Length Real.sqrt v + SmallestNonzeroFloat64 ℝ)
      ∧ |Length Real.sqrt (Normalize Real.sqrt v) - 1|
          ≤ SmallestNonzeroFloat64 ℝ / Length Real.sqrt v := by
  have hε : 0 < SmallestNonzeroFloat64 ℝ := smallestNonzeroFloat64_pos
  have hL : 0 < Length Real.sqrt v := length_pos_of_ne_origin v hv
  have hsum : 0 < Length Real.sqrt v + SmallestNonzeroFloat64 ℝ := by linarith
  refine ⟨length_normalize v, ?_⟩
  rw [length_normalize]
  have hdiff : Length Real.sqrt v / (Length Real.sqrt v + SmallestNonzeroFloat64 ℝ) - 1
      = -((SmallestNonzeroFloat64 ℝ) / (Length Real.sqrt v + SmallestNonzeroFloat64 ℝ)) := by
    field_simp
  rw [hdiff, abs_neg, abs_of_nonneg (by positivity)]
  exact div_le_div_of_nonneg_left hε.le hL (by linarith)

/-- Witness of C3 at `v = (3, 4)`. -/
theorem C3_normalize_length_witness :
    (⟨3, 4⟩ : V ℝ) ≠ Origin
      ∧ Length Real.sqrt (Normalize Real.sqrt (⟨3, 4⟩ : V ℝ))
          = Length Real.sqrt (⟨3, 4⟩ : V ℝ)
              / (Length Real.sqrt (⟨3, 4⟩ : V ℝ) + SmallestNonzeroFloat64 ℝ)
      ∧ |Length Real.sqrt (Normalize Real.sqrt (⟨3, 4⟩ : V ℝ)) - 1|
          ≤ SmallestNonzeroFloat64 ℝ / Length Real.sqrt (⟨3, 4⟩ : V ℝ) :=
  have hne : (⟨3, 4⟩ : V ℝ) ≠ Origin := by simp [Origin]
  ⟨hne, C3_normalize_length ⟨3, 4⟩ hne⟩

/-- C4 (as stated, refuted): encoding the vector `(NaN, 0)` fails. -/
theorem C4_marshal_nan_fails :
    MarshalJSON (⟨.NaN, .num 0⟩ : V (Float64 ℝ)) = .error (.UnsupportedValueError "NaN")
      ∧ ¬ ∃ d, MarshalJSON (⟨.NaN, .num 0⟩ : V (Float64 ℝ)) = .ok d := by
  refine ⟨rfl, ?_⟩
  rintro ⟨d, hd⟩
  simp [MarshalJSON, jsonMarshalArray2, encodeFloat64] at hd

/-- C4 (amended): for every vector `v` whose two components are numbers (neither
NaN nor an infinity), encoding succeeds, the encoded text is the 2-element array
`[v.X, v.Y]`, and decoding it into any receiver `r` succeeds and leaves the
receiver equal to `v`. -/
theorem C4_roundtrip_finite (v r : V (Float64 ℝ))
    (hX : v.X.isFinite = true) (hY : v.Y.isFinite = true) :
    ∃ x y, v = ⟨.num x, .num y⟩
      ∧ MarshalJSON v = .ok (.text (.array [.number x, .number y]))
      ∧ UnmarshalJSON r (.text (.array [.number x, .number y])) = (v, none) := by
  obtain ⟨vx, vy⟩ := v
  cases vx <;> cases vy <;> simp [Float64.isFinite] at hX hY
  rename_i x y
  exact ⟨x, y, rfl, rfl, rfl⟩

/-- Witness of C4 (amended) at `v = (3, 4)`, receiver `(7, 7)`. -/
theorem C4_roundtrip_finite_witness :
    ∃ x y, (⟨.num 3, .num 4⟩ : V (Float64 ℝ)) = ⟨.num x, .num y⟩
      ∧ MarshalJSON (⟨.num 3, .num 4⟩ : V (Float64 ℝ)) = .ok (.text (.array [.number x, .number y]))
      ∧ UnmarshalJSON (⟨.num 7, .num 7⟩ : V (Float64 ℝ)) (.text (.array [.number x, .number y]))
          = (⟨.num 3, .num 4⟩, none) :=
  C4_roundtrip_finite ⟨.num 3, .num 4⟩ ⟨.num 7, .num 7⟩ rfl rfl

/-- C5 (as stated, refuted): `[1e400, 2]` is a 2-element array of numbers, and
decoding it fails: `1e400` is out of the range of `float64`, so the array attempt
fails, and so does the object attempt, whose error is returned; the receiver is
left as it was. -/
theorem C5_out_of_range_number_fails :
    UnmarshalJSON (⟨.num 7, .num 7⟩ : V (Float64 ℝ))
        (.text (.array [.bigNumber "1e400", .number 2]))
      = (⟨.num 7, .num 7⟩,
          some (.UnmarshalTypeError "array" "struct \x7b X float64; Y float64 \x7d" ""))
      ∧ (jsonUnmarshalArray2 (.text (.array [.bigNumber "1e400", .number 2]) : Data ℝ)
          (.num 0, .num 0)).2 = some (.UnmarshalTypeError "number 1e400" "float64" "") :=
  ⟨rfl, rfl⟩

/-- C5 (amended): for every pair of numbers `x`, `y` within the range of `float64`
(read as the `float64` values they denote) and every receiver, decoding the
2-element array `[x, y]` and decoding the keyed object `{"X":x,"Y":y}` both succeed
and both leave the receiver equal to `V{x, y}`; on every input the array form is
tried first and the keyed-object form decides only when the array form fails;
`[3, 4]` and `{"X":3,"Y":4}` both give `(3, 4)`; an array or object of that shape
with a number out of the range of `float64` in place of `x` fails. -/
theorem C5_dual_format_decode (v : V (Float64 ℝ)) (x y : ℝ) (data : Data ℝ) (s : String) :
    UnmarshalJSON v (.text (.array [.number x, .number y])) = (⟨.num x, .num y⟩, none)
      ∧ UnmarshalJSON v (.text (.object [("X", .number x), ("Y", .number y)]))
          = (⟨.num x, .num y⟩, none)
      ∧ UnmarshalJSON v data
          = (if (jsonUnmarshalArray2 data (.num 0, .num 0)).2 = none then
              (⟨(jsonUnmarshalArray2 data (.num 0, .num 0)).1.1,
                (jsonUnmarshalArray2 data (.num 0, .num 0)).1.2⟩, none)
            else if (jsonUnmarshalStructXY data (.num 0, .num 0)).2 = none then
              (⟨(jsonUnmarshalStructXY data (.num 0, .num 0)).1.1,
                (jsonUnmarshalStructXY data (.num 0, .num 0)).1.2⟩, none)
            else (v, (jsonUnmarshalStructXY data (.num 0, .num 0)).2))
      ∧ UnmarshalJSON v (.text (.array [.number 3, .number 4])) = (⟨.num 3, .num 4⟩, none)
      ∧ UnmarshalJSON v (.text (.object [("X", .number 3), ("Y", .number 4)]))
          = (⟨.num 3, .num 4⟩, none)
      ∧ UnmarshalJSON v (.text (.array [.bigNumber s, .number y]))
          = (v, some (.UnmarshalTypeError "array" "struct \x7b X float64; Y float64 \x7d" ""))
      ∧ UnmarshalJSON v (.text (.object [("X", .bigNumber s), ("Y", .number y)]))
          = (v, some (.UnmarshalTypeError ("number " ++ s) "float64" "X")) := by
  have hobj : ∀ a b : ℝ, UnmarshalJSON v (.text (.object [("X", .number a), ("Y", .number b)]))
      = (⟨.num a, .num b⟩, none) := by
    intro a b
    simp [UnmarshalJSON, jsonUnmarshalArray2, jsonUnmarshalStructXY, decodeMember,
      decodeFloat64, saveError, Value.kind]
  refine ⟨rfl, hobj x y, unmarshalJSON_eq v data, rfl, hobj 3 4, ?_, ?_⟩
  · simp [UnmarshalJSON, jsonUnmarshalArray2, jsonUnmarshalStructXY, decodeSlot,
      decodeFloat64, saveError, Value.kind]
  · simp [UnmarshalJSON, jsonUnmarshalArray2, jsonUnmarshalStructXY, decodeMember,
      decodeFloat64, saveError, Value.kind]

/-- C6 (as stated, refuted): in one direction, the 1-element array `[1]` matches
neither the array form nor the keyed-object form, and `UnmarshalJSON` returns no
error on it: the receiver becomes `(1, 0)`; in the other direction, `[1e400, 2]`
matches the array form, and `UnmarshalJSON` returns an error on it. -/
theorem C6_short_array_decodes :
    isArrayForm (.text (.array [.number 1]) : Data ℝ) = false
      ∧ isKeyedObjectForm (.text (.array [.number 1]) : Data ℝ) = false
      ∧ UnmarshalJSON (⟨.num 7, .num 7⟩ : V (Float64 ℝ)) (.text (.array [.number 1]))
          = (⟨.num 1, .num 0⟩, none)
      ∧ isArrayForm (.text (.array [.bigNumber "1e400", .number 2]) : Data ℝ) = true
      ∧ UnmarshalJSON (⟨.num 7, .num 7⟩ : V (Float64 ℝ))
            (.text (.array [.bigNumber "1e400", .number 2]))
          = (⟨.num 7, .num 7⟩,
              some (.UnmarshalTypeError "array" "struct \x7b X float64; Y float64 \x7d" "")) :=
  ⟨rfl, rfl, rfl, rfl, rfl⟩

/-- C6 (amended): `UnmarshalJSON` returns an error if and only if both
`json.Unmarshal` attempts fail, which is the case only if the input matches neither
the array form nor the keyed-object form or holds a number out of the range of
`float64` (the converse fails); the array attempt fails unless the input is `null`
or an array whose elements of index 0 and 1, where present, are numbers within the
range of `float64` or `null`; the object attempt fails unless the input is `null`
or an object whose members named `X` or `Y` (in either case) are all numbers within
that range or `null`; when `UnmarshalJSON` fails, the error is that of the second
attempt and the receiver is unchanged; input that is not JSON fails with a syntax
error. -/
theorem C6_unmarshal_error (v : V (Float64 ℝ)) (data : Data ℝ) :
    ((UnmarshalJSON v data).2 ≠ none
        ↔ (jsonUnmarshalArray2 data (.num 0, .num 0)).2 ≠ none
          ∧ (jsonUnmarshalStructXY data (.num 0, .num 0)).2 ≠ none)
      ∧ ((UnmarshalJSON v data).2 ≠ none
          → (isArrayForm data = false ∧ isKeyedObjectForm data = false)
            ∨ hasBigNumber data = true)
      ∧ ((jsonUnmarshalArray2 data (.num 0, .num 0)).2 = none
          ↔ data = .text .null
            ∨ ∃ elems, data = .text (.array elems)
                ∧ (∀ j, elems.get? 0 = some j → j.isNumberOrNull = true)
                ∧ (∀ j, elems.get? 1 = some j → j.isNumberOrNull = true))
      ∧ ((jsonUnmarshalStructXY data (.num 0, .num 0)).2 = none
          ↔ data = .text .null
            ∨ ∃ members, data = .text (.object members)
                ∧ ∀ kv ∈ members, namesField kv = true → kv.2.isNumberOrNull = true)
      ∧ ((UnmarshalJSON v data).2 ≠ none
          → (UnmarshalJSON v data).2 = (jsonUnmarshalStructXY data (.num 0, .num 0)).2
            ∧ (UnmarshalJSON v data).1 = v)
      ∧ UnmarshalJSON v (.invalid : Data ℝ) = (v, some .SyntaxError) := by
  refine ⟨?_, ?_, jsonUnmarshalArray2_snd_eq_none data _,
    jsonUnmarshalStructXY_snd_eq_none data _, ?_, rfl⟩
  · rw [unmarshalJSON_eq]
    by_cases h1 : (jsonUnmarshalArray2 data (.num 0, .num 0)).2 = none
    · simp [h1]
    · by_cases h2 : (jsonUnmarshalStructXY data (.num 0, .num 0)).2 = none
      · simp [h1, h2]
      · simp [h1, h2]
  · intro herr
    by_cases hb : hasBigNumber data = true
    · exact Or.inr hb
    · left
      have hb' : hasBigNumber data = false := by simpa using hb
      constructor
      · by_contra hc
        exact herr (unmarshalJSON_of_isArrayForm v data (by simpa using hc) hb')
      · by_contra hc
        exact herr (unmarshalJSON_of_isKeyedObjectForm v data (by simpa using hc) hb')
  · rw [unmarshalJSON_eq]
    by_cases h1 : (jsonUnmarshalArray2 data (.num 0, .num 0)).2 = none
    · simp [h1]
    · by_cases h2 : (jsonUnmarshalStructXY data (.num 0, .num 0)).2 = none
      · simp [h1, h2]
      · simp [h1, h2]

/-- Witness of C6 (amended) at the JSON string `"not json"` (valid JSON, of neither
form): both attempts fail and the error is that of the object attempt. -/
theorem C6_unmarshal_error_witness :
    (UnmarshalJSON (⟨.num 7, .num 7⟩ : V (Float64 ℝ)) (.text (.string "not json"))).2 ≠ none
      ∧ (UnmarshalJSON (⟨.num 7, .num 7⟩ : V (Float64 ℝ)) (.text (.string "not json"))).2
          = some (.UnmarshalTypeError "string" "struct \x7b X float64; Y float64 \x7d" "")
      ∧ (UnmarshalJSON (⟨.num 7, .num 7⟩ : V (Float64 ℝ)) (.text (.string "not json"))).1
          = ⟨.num 7, .num 7⟩ :=
  have herr : (UnmarshalJSON (⟨.num 7, .num 7⟩ : V (Float64 ℝ))
      (.text (.string "not json"))).2 ≠ none := by
    simp [UnmarshalJSON, jsonUnmarshalArray2, jsonUnmarshalStructXY, Value.kind]
  have h := (C6_unmarshal_error ⟨.num 7, .num 7⟩ (.text (.string "not json"))).2.2.2.2.1 herr
  ⟨herr, h.1.trans rfl, h.2⟩

/-- C7: for all vectors `a`, `b`, `Distance a b = Distance b a`, and
`Distance a a = 0`; `Distance a b` is the non-negative square root of
`(a.X - b.X)² + (a.Y - b.Y)²`; `Distance (0,0) (4,0) = 4` and
`Distance (1,1) (0,0) = sqrt 2`. -/
theorem C7_distance_symm_self (a b : V ℝ) :
    Distance Real.sqrt a b = Distance Real.sqrt b a
      ∧ Distance Real.sqrt a a = 0
      ∧ Distance Real.sqrt a b = Real.sqrt ((a.X - b.X) ^ 2 + (a.Y - b.Y) ^ 2)
      ∧ 0 ≤ Distance Real.sqrt a b
      ∧ Distance Real.sqrt a b * Distance Real.sqrt a b = (a.X - b.X) ^ 2 + (a.Y - b.Y) ^ 2
      ∧ Distance Real.sqrt (⟨0, 0⟩ : V ℝ) ⟨4, 0⟩ = 4
      ∧ Distance Real.sqrt (⟨1, 1⟩ : V ℝ) ⟨0, 0⟩ = Real.sqrt 2 := by
  have hsq : DistanceSquared a b = (a.X - b.X) ^ 2 + (a.Y - b.Y) ^ 2 := by
    unfold DistanceSquared
    ring
  refine ⟨?_, ?_, ?_, ?_, ?_, ?_, ?_⟩
  · have hsymm : DistanceSquared a b = DistanceSquared b a := by
      unfold DistanceSquared
      ring
    unfold Distance
    rw [hsymm]
  · unfold Distance DistanceSquared
    simp
  · unfold Distance
    rw [hsq]
  · exact Real.sqrt_nonneg _
  · unfold Distance
    rw [Real.mul_self_sqrt (distanceSquared_nonneg a b), hsq]
  · have h16 : DistanceSquared (⟨0, 0⟩ : V ℝ) ⟨4, 0⟩ = 4 * 4 := by
      unfold DistanceSquared
      norm_num
    unfold Distance
    rw [h16]
    exact Real.sqrt_mul_self (by norm_num)
  · have h2 : DistanceSquared (⟨1, 1⟩ : V ℝ) ⟨0, 0⟩ = 2 := by
      unfold DistanceSquared
      norm_num
    unfold Distance
    rw [h2]

/-- C8: for all vectors `a`, `b`, `Add a b = Add b a` and `Dot a b = Dot b a`. -/
theorem C8_add_dot_comm (a b : V ℝ) : Add a b = Add b a ∧ Dot a b = Dot b a := by
  constructor
  · simp only [Add, V.mk.injEq]
    exact ⟨add_comm _ _, add_comm _ _⟩
  · unfold Dot
    ring

/-- C9: for every vector `v`, under the library's `Equal`: `Add v Origin` and
`Add Origin v` equal `v`, `Mult v 1` equals `v`, `Negate (Negate v)` equals `v`;
`Add` is the componentwise sum; `Add (1,2) (0,0) = (1,2)` and
`Add (2,4) (1,3) = (3,7)`. -/
theorem C9_identities (v w : V ℝ) :
    Equal (Add v Origin) v = true
      ∧ Equal (Add Origin v) v = true
      ∧ Equal (Mult v 1) v = true
      ∧ Equal (Negate (Negate v)) v = true
      ∧ (Add v w).X = v.X + w.X ∧ (Add v w).Y = v.Y + w.Y
      ∧ Equal (Add (⟨1, 2⟩ : V ℝ) ⟨0, 0⟩) ⟨1, 2⟩ = true
      ∧ Equal (Add (⟨2, 4⟩ : V ℝ) ⟨1, 3⟩) ⟨3, 7⟩ = true := by
  obtain ⟨x, y⟩ := v
  refine ⟨?_, ?_, ?_, ?_, rfl, rfl, ?_, ?_⟩
  · simp [Equal, Add, Origin]
  · simp [Equal, Add, Origin]
  · simp [Equal, Mult]
  · simp [Equal, Negate]
  · simp [Equal, Add]
  · simp only [Equal, Add, decide_eq_true_eq, V.mk.injEq]
    constructor <;> norm_num

/-- C10: for all vectors `a`, `b`, `Min a b` has components `min a.X b.X`,
`min a.Y b.Y` and `Max a b` has components `max a.X b.X`, `max a.Y b.Y`; every
component of `Min` is a lower bound of, and equal to one of, the two input
components (dually for `Max`); both are commutative; `Min (5,2) (1,4) = (1,2)`
and `Max (5,2) (1,4) = (5,4)`. -/
theorem C10_min_max (a b : V ℝ) :
    ((Min a b).X = min a.X b.X ∧ (Min a b).Y = min a.Y b.Y)
      ∧ ((Max a b).X = max a.X b.X ∧ (Max a b).Y = max a.Y b.Y)
      ∧ ((Min a b).X ≤ a.X ∧ (Min a b).X ≤ b.X ∧ (Min a b).Y ≤ a.Y ∧ (Min a b).Y ≤ b.Y)
      ∧ (((Min a b).X = a.X ∨ (Min a b).X = b.X) ∧ ((Min a b).Y = a.Y ∨ (Min a b).Y = b.Y))
      ∧ (a.X ≤ (Max a b).X ∧ b.X ≤ (Max a b).X ∧ a.Y ≤ (Max a b).Y ∧ b.Y ≤ (Max a b).Y)
      ∧ (((Max a b).X = a.X ∨ (Max a b).X = b.X) ∧ ((Max a b).Y = a.Y ∨ (Max a b).Y = b.Y))
      ∧ Min a b = Min b a ∧ Max a b = Max b a
      ∧ Min (⟨5, 2⟩ : V ℝ) ⟨1, 4⟩ = ⟨1, 2⟩
      ∧ Max (⟨5, 2⟩ : V ℝ) ⟨1, 4⟩ = ⟨5, 4⟩ := by
  refine ⟨⟨rfl, rfl⟩, ⟨rfl, rfl⟩, ?_, ?_, ?_, ?_, ?_, ?_, ?_, ?_⟩
  · exact ⟨min_le_left _ _, min_le_right _ _, min_le_left _ _, min_le_right _ _⟩
  · exact ⟨min_choice _ _, min_choice _ _⟩
  · exact ⟨le_max_left _ _, le_max_right _ _, le_max_left _ _, le_max_right _ _⟩
  · exact ⟨max_choice _ _, max_choice _ _⟩
  · simp only [Min, V.mk.injEq]
    exact ⟨min_comm _ _, min_comm _ _⟩
  · simp only [Max, V.mk.injEq]
    exact ⟨max_comm _ _, max_comm _ _⟩
  · simp only [Min, V.mk.injEq]
    constructor <;> norm_num
  · simp only [Max, V.mk.injEq]
    constructor <;> norm_num

/-- C11 (the code at a failing input): `Lerp a b 0 = a` holds for all `a`, `b`, but
at `a = (0,0)`, `b = (1,1)` the code gives `Lerp a b 1 = (-1,-1)`, not `b`, and
`Lerp a b (1/2) = (-1/2,-1/2)`, whose components are not between those of `a` and
`b`; in general `Lerp a b 1 = 2a - b`. -/
theorem C11_lerp_extrapolates (a b : V ℝ) :
    Lerp a b 0 = a
      ∧ Lerp a b 1 = ⟨2 * a.X - b.X, 2 * a.Y - b.Y⟩
      ∧ Lerp (⟨0, 0⟩ : V ℝ) ⟨1, 1⟩ 1 = ⟨-1, -1⟩
      ∧ Lerp (⟨0, 0⟩ : V ℝ) ⟨1, 1⟩ 1 ≠ ⟨1, 1⟩
      ∧ Lerp (⟨0, 0⟩ : V ℝ) ⟨1, 1⟩ (1 / 2) = ⟨-(1 / 2), -(1 / 2)⟩
      ∧ ¬ ((0 : ℝ) ≤ (Lerp (⟨0, 0⟩ : V ℝ) ⟨1, 1⟩ (1 / 2)).X
            ∧ (Lerp (⟨0, 0⟩ : V ℝ) ⟨1, 1⟩ (1 / 2)).X ≤ 1) := by
  refine ⟨?_, ?_, ?_, ?_, ?_, ?_⟩
  · simp [Lerp]
  · simp only [Lerp, V.mk.injEq]
    constructor <;> ring
  · simp [Lerp]
  · simp only [Lerp, ne_eq, V.mk.injEq, not_and]
    norm_num
  · simp [Lerp]
  · simp only [Lerp]
    norm_num

/-- C12 (as stated, refuted): at `v = (1, 0)`, `s = 1` the code gives
`CrossVF v s = (0, -1)`, and the vector `V{s*v.Y, -s*v.Y}` of the doc comment is
`(0, 0)`. -/
theorem C12_crossVF_not_doc_comment :
    CrossVF (⟨1, 0⟩ : V ℝ) 1 = ⟨0, -1⟩
      ∧ CrossVF (⟨1, 0⟩ : V ℝ) 1 ≠ ⟨1 * (⟨1, 0⟩ : V ℝ).Y, -1 * (⟨1, 0⟩ : V ℝ).Y⟩ := by
  constructor
  · simp [CrossVF]
  · simp [CrossVF]

/-- C12 (amended): for every vector `v` and scalar `s`, `CrossVF v s` equals
`V{s*v.Y, -s*v.X}`; it is the negation of `CrossFV s v`, and it equals the
`V{s*v.Y, -s*v.Y}` of the doc comment exactly when `s*v.X = s*v.Y`. -/
theorem C12_crossVF (v : V ℝ) (s : ℝ) :
    CrossVF v s = ⟨s * v.Y, -s * v.X⟩
      ∧ CrossVF v s = Negate (CrossFV s v)
      ∧ (CrossVF v s = ⟨s * v.Y, -s * v.Y⟩ ↔ s * v.X = s * v.Y) := by
  refine ⟨rfl, ?_, ?_⟩
  · simp [CrossVF, CrossFV, Negate]
  · simp [CrossVF]

/-- C14 (as stated, refuted): in binary64, with the values that `math.Cos` and
`math.Sin` return at `3`, `ForAngle 3 = (-0.9899924966004454, 0.1411200080598672)`
has `LengthSquared` and `Length` equal to `0.9999999999999999`, not `1`. -/
theorem C14_forAngle_not_unit :
    ForAngle cosAt3 sinAt3 3 = ⟨-0.9899924966004454, 0.1411200080598672⟩
      ∧ LengthSquared (ForAngle cosAt3 sinAt3 3) = 0.9999999999999999
      ∧ Length Binary64.sqrt (ForAngle cosAt3 sinAt3 3) = 0.9999999999999999
      ∧ Binary64.eq (LengthSquared (ForAngle cosAt3 sinAt3 3)) 1 = false
      ∧ Binary64.eq (Length Binary64.sqrt (ForAngle cosAt3 sinAt3 3)) 1 = false := by
  decide!

/-- C14 (amended): in exact real arithmetic, for every angle `θ`,
`ForAngle θ = (cos θ, sin θ)`,
`LengthSquared (ForAngle θ) = 1` and `Length (ForAngle θ) = 1`. -/
theorem C14_forAngle_unit (θ : ℝ) :
    ForAngle Real.cos Real.sin θ = ⟨Real.cos θ, Real.sin θ⟩
      ∧ LengthSquared (ForAngle Real.cos Real.sin θ) = 1
      ∧ Length Real.sqrt (ForAngle Real.cos Real.sin θ) = 1 := by
  have h1 : DistanceSquared (ForAngle Real.cos Real.sin θ) ⟨0, 0⟩ = 1 := by
    have h := Real.cos_sq_add_sin_sq θ
    simp only [DistanceSquared, ForAngle, sub_zero]
    linear_combination h
  refine ⟨rfl, h1, ?_⟩
  unfold Length Distance
  rw [h1, Real.sqrt_one]

/-- C16: for every `val` and every `min ≤ max`: `min ≤ FClamp val min max ≤ max`;
`FClamp val min max = val` whenever `min ≤ val ≤ max`; below `min` the result is
`min` and above `max` it is `max`, which is in each case the bound nearer to
`val`. -/
theorem C16_fclamp (val min max : ℝ) (h : min ≤ max) :
    (min ≤ FClamp val min max ∧ FClamp val min max ≤ max)
      ∧ (min ≤ val ∧ val ≤ max → FClamp val min max = val)
      ∧ (val < min → FClamp val min max = min ∧ |val - min| ≤ |val - max|)
      ∧ (max < val → FClamp val min max = max ∧ |val - max| ≤ |val - min|) := by
  refine ⟨?_, ?_, ?_, ?_⟩
  · unfold FClamp
    split_ifs with h1 h2
    · exact ⟨le_refl _, h⟩
    · exact ⟨h, le_refl _⟩
    · exact ⟨not_lt.mp h1, not_lt.mp h2⟩
  · rintro ⟨h1, h2⟩
    unfold FClamp
    rw [if_neg (not_lt.mpr h1), if_neg (not_lt.mpr h2)]
  · intro h1
    refine ⟨by unfold FClamp; rw [if_pos h1], ?_⟩
    rw [abs_of_neg (by linarith), abs_of_neg (by linarith)]
    linarith
  · intro h1
    have h2 : ¬ val < min := not_lt.mpr (by linarith)
    refine ⟨by unfold FClamp; rw [if_neg h2, if_pos h1], ?_⟩
    rw [abs_of_pos (by linarith), abs_of_pos (by linarith)]
    linarith

/-- Witness of C16 at `val = 5`, `min = 0`, `max = 3`. -/
theorem C16_fclamp_witness :
    (0 : ℝ) ≤ 3
      ∧ ((0 ≤ FClamp (5 : ℝ) 0 3 ∧ FClamp (5 : ℝ) 0 3 ≤ 3)
        ∧ (0 ≤ (5 : ℝ) ∧ (5 : ℝ) ≤ 3 → FClamp (5 : ℝ) 0 3 = 5)
        ∧ ((5 : ℝ) < 0 → FClamp (5 : ℝ) 0 3 = 0 ∧ |(5 : ℝ) - 0| ≤ |(5 : ℝ) - 3|)
        ∧ ((3 : ℝ) < 5 → FClamp (5 : ℝ) 0 3 = 3 ∧ |(5 : ℝ) - 3| ≤ |(5 : ℝ) - 0|)) :=
  ⟨by norm_num, C16_fclamp 5 0 3 (by norm_num)⟩

/-- C19 (as stated, refuted): in binary64, at `a = (0.1, 0.2)`, `b = (0.3, 0.7)`,
`Unrotate (Rotate a b) b = (0.058, 0.11599999999999999)` and
`Mult a (LengthSquared b) = (0.057999999999999996, 0.11599999999999999)`. -/
theorem C19_unrotate_rotate_rounds :
    Unrotate (Rotate (⟨0.1, 0.2⟩ : V Binary64) ⟨0.3, 0.7⟩) ⟨0.3, 0.7⟩
        = ⟨0.058, 0.11599999999999999⟩
      ∧ Mult (⟨0.1, 0.2⟩ : V Binary64) (LengthSquared (⟨0.3, 0.7⟩ : V Binary64))
          = ⟨0.057999999999999996, 0.11599999999999999⟩
      ∧ Binary64.eq (Unrotate (Rotate (⟨0.1, 0.2⟩ : V Binary64) ⟨0.3, 0.7⟩) ⟨0.3, 0.7⟩).X
          (Mult (⟨0.1, 0.2⟩ : V Binary64) (LengthSquared (⟨0.3, 0.7⟩ : V Binary64))).X = false := by
  decide!

/-- C19 (amended): in exact real arithmetic, for all vectors `a` and `b`,
`Unrotate (Rotate a b) b = Mult a (LengthSquared b)`;
hence `Unrotate (Rotate a b) b = a` exactly when `LengthSquared b = 1` or `a` is the
zero vector. -/
theorem C19_unrotate_rotate_scales (a b : V ℝ) :
    Unrotate (Rotate a b) b = Mult a (LengthSquared b)
      ∧ (Unrotate (Rotate a b) b = a ↔ LengthSquared b = 1 ∨ a = Origin) := by
  have h : Unrotate (Rotate a b) b = Mult a (LengthSquared b) := by
    simp only [Unrotate, Rotate, Mult, LengthSquared, DistanceSquared, V.mk.injEq]
    constructor <;> ring
  refine ⟨h, ?_⟩
  rw [h]
  obtain ⟨x, y⟩ := a
  simp only [Mult, Origin, V.mk.injEq]
  constructor
  · rintro ⟨hx, hy⟩
    by_cases hs : LengthSquared b = 1
    · exact Or.inl hs
    · right
      have hs1 : LengthSquared b - 1 ≠ 0 := sub_ne_zero.mpr hs
      constructor
      · have : x * (LengthSquared b - 1) = 0 := by linear_combination hx
        exact (mul_eq_zero.mp this).resolve_right hs1
      · have : y * (LengthSquared b - 1) = 0 := by linear_combination hy
        exact (mul_eq_zero.mp this).resolve_right hs1
  · rintro (hs | ⟨hx, hy⟩)
    · simp [hs]
    · simp [hx, hy]

/-- C13 (the code at a failing input): with `math.Atan2(y, x)` the argument of
`x + y i`, the code gives `ToAngle (1, 0) = π/2`, so that
`Mult (ForAngle (ToAngle v)) (Length v) = (0, 1) ≠ v` at the non-zero `v = (1, 0)`,
and `ToAngle (ForAngle 0) = π/2 ≠ 0` at the angle `0` of `(-π, π]`. -/
theorem C13_toAngle_swapped :
    ToAngle (fun y x => Complex.arg ⟨x, y⟩) (⟨1, 0⟩ : V ℝ) = Real.pi / 2
      ∧ Mult (ForAngle Real.cos Real.sin (ToAngle (fun y x => Complex.arg ⟨x, y⟩) (⟨1, 0⟩ : V ℝ)))
            (Length Real.sqrt (⟨1, 0⟩ : V ℝ)) = ⟨0, 1⟩
      ∧ Mult (ForAngle Real.cos Real.sin (ToAngle (fun y x => Complex.arg ⟨x, y⟩) (⟨1, 0⟩ : V ℝ)))
            (Length Real.sqrt (⟨1, 0⟩ : V ℝ)) ≠ ⟨1, 0⟩
      ∧ ToAngle (fun y x => Complex.arg ⟨x, y⟩) (ForAngle Real.cos Real.sin 0) = Real.pi / 2
      ∧ ToAngle (fun y x => Complex.arg ⟨x, y⟩) (ForAngle Real.cos Real.sin 0) ≠ 0 := by
  have hI : (⟨0, 1⟩ : ℂ) = Complex.I := rfl
  have hA : ToAngle (fun y x => Complex.arg ⟨x, y⟩) (⟨1, 0⟩ : V ℝ) = Real.pi / 2 := by
    simp only [ToAngle]
    rw [hI, Complex.arg_I]
  have hL : Length Real.sqrt (⟨1, 0⟩ : V ℝ) = 1 := by
    simp [Length, Distance, DistanceSquared]
  have hM : Mult (ForAngle Real.cos Real.sin (Real.pi / 2)) (1 : ℝ) = ⟨0, 1⟩ := by
    simp [Mult, ForAngle]
  have hF : ForAngle Real.cos Real.sin (0 : ℝ) = ⟨1, 0⟩ := by
    simp [ForAngle]
  refine ⟨hA, ?_, ?_, ?_, ?_⟩
  · rw [hA, hL, hM]
  · rw [hA, hL, hM]
    simp
  · rw [hF, hA]
  · rw [hF, hA]
    exact (div_pos Real.pi_pos two_pos).ne'

/-- C15 (as stated, refuted): in binary64, at `a = (0, 1)` and the non-zero
`b = (1, 2)`, `Project a b = (0.4, 0.8)` and the residual
`(-0.4, 0.19999999999999996)` has `Dot` with `b` equal to `-1.1102230246251565e-16`,
not `0`; at `a = (1, 0)`, `b = (1, 3)`, `Project a b = (0.1, 0.30000000000000004)`
and `Project (Project a b) b = (0.10000000000000002, 0.30000000000000004)`. -/
theorem C15_project_rounds :
    Project (⟨0, 1⟩ : V Binary64) ⟨1, 2⟩ = ⟨0.4, 0.8⟩
      ∧ Sub (⟨0, 1⟩ : V Binary64) (Project ⟨0, 1⟩ ⟨1, 2⟩) = ⟨-0.4, 0.19999999999999996⟩
      ∧ Dot (Sub (⟨0, 1⟩ : V Binary64) (Project ⟨0, 1⟩ ⟨1, 2⟩)) ⟨1, 2⟩
          = -1.1102230246251565e-16
      ∧ Binary64.eq (Dot (Sub (⟨0, 1⟩ : V Binary64) (Project ⟨0, 1⟩ ⟨1, 2⟩)) ⟨1, 2⟩) 0 = false
      ∧ Project (⟨1, 0⟩ : V Binary64) ⟨1, 3⟩ = ⟨0.1, 0.30000000000000004⟩
      ∧ Project (Project (⟨1, 0⟩ : V Binary64) ⟨1, 3⟩) ⟨1, 3⟩
          = ⟨0.10000000000000002, 0.30000000000000004⟩
      ∧ Binary64.eq (Project (Project (⟨1, 0⟩ : V Binary64) ⟨1, 3⟩) ⟨1, 3⟩).X
          (Project (⟨1, 0⟩ : V Binary64) ⟨1, 3⟩).X = false := by
  decide!

/-- C15 (amended): in exact real arithmetic, for every `a` and every non-zero `b`,
`Project a b = Mult b (Dot a b / Dot b b)`, a scalar multiple of `b`; the residual
`Sub a (Project a b)` has `Dot` with `b` equal to `0`; and
`Project (Project a b) b = Project a b`. -/
theorem C15_project (a b : V ℝ) (hb : b ≠ Origin) :
    Project a b = Mult b (Dot a b / Dot b b)
      ∧ (∃ k : ℝ, Project a b = Mult b k)
      ∧ Dot (Sub a (Project a b)) b = 0
      ∧ Project (Project a b) b = Project a b := by
  have hbb : Dot b b ≠ 0 := by
    rw [← length_mul_self]
    exact (mul_pos (length_pos_of_ne_origin b hb) (length_pos_of_ne_origin b hb)).ne'
  obtain ⟨ax, ay⟩ := a
  obtain ⟨bx, bz⟩ := b
  simp only [Dot] at hbb
  refine ⟨rfl, ⟨_, rfl⟩, ?_, ?_⟩
  · simp only [Project, Dot, Sub, Mult]
    field_simp
    ring
  · simp only [Project, Dot, Mult, V.mk.injEq]
    constructor
    · field_simp
      ring
    · field_simp
      ring

/-- Witness of C15 at `a = (3, 4)`, `b = (1, 0)`. -/
theorem C15_project_witness :
    (⟨1, 0⟩ : V ℝ) ≠ Origin
      ∧ (Project (⟨3, 4⟩ : V ℝ) ⟨1, 0⟩ = Mult ⟨1, 0⟩ (Dot (⟨3, 4⟩ : V ℝ) ⟨1, 0⟩ / Dot (⟨1, 0⟩ : V ℝ) ⟨1, 0⟩)
        ∧ (∃ k : ℝ, Project (⟨3, 4⟩ : V ℝ) ⟨1, 0⟩ = Mult ⟨1, 0⟩ k)
        ∧ Dot (Sub (⟨3, 4⟩ : V ℝ) (Project ⟨3, 4⟩ ⟨1, 0⟩)) ⟨1, 0⟩ = 0
        ∧ Project (Project (⟨3, 4⟩ : V ℝ) ⟨1, 0⟩) ⟨1, 0⟩ = Project ⟨3, 4⟩ ⟨1, 0⟩) :=
  have hne : (⟨1, 0⟩ : V ℝ) ≠ Origin := by simp [Origin]
  ⟨hne, C15_project ⟨3, 4⟩ ⟨1, 0⟩ hne⟩

/-- C17 (as stated, refuted): in binary64, `Normalize Origin` is `(NaN, NaN)`: its
components are not numbers of finite magnitude. -/
theorem C17_normalize_origin_nan :
    Normalize Binary64.sqrt (Origin : V Binary64) = ⟨.nan, .nan⟩ := by
  decide!

/-- C17 (amended): `Normalize` of the zero vector returns neither a clean zero
vector nor a vector of finite magnitude.  In binary64, `Length Origin = 0`, the
guard makes the denominator `0 + ε = ε`, which is not zero, but the factor `1 / ε`
(`2^1074`, more than `MaxFloat64`) is `+Inf`, and `Normalize Origin`, which is
`Mult Origin (+Inf)`, is `(NaN, NaN)`, since `0 * (+Inf)` is NaN.  In exact real
arithmetic the factor is `2^1074` and `Normalize Origin` is the zero vector. -/
theorem C17_normalize_origin_guard :
    (Length Binary64.sqrt (Origin : V Binary64) = 0
        ∧ Length Binary64.sqrt (Origin : V Binary64) + SmallestNonzeroFloat64 Binary64
            = SmallestNonzeroFloat64 Binary64
        ∧ Binary64.eq (SmallestNonzeroFloat64 Binary64) 0 = false
        ∧ (1 : Binary64)
            / (Length Binary64.sqrt (Origin : V Binary64) + SmallestNonzeroFloat64 Binary64)
            = .inf false
        ∧ Normalize Binary64.sqrt (Origin : V Binary64) = Mult Origin (.inf false)
        ∧ Normalize Binary64.sqrt (Origin : V Binary64) = ⟨.nan, .nan⟩)
      ∧ ((1 : ℝ) / (Length Real.sqrt (Origin : V ℝ) + SmallestNonzeroFloat64 ℝ) = 2 ^ 1074
        ∧ MaxFloat64 ℝ < 2 ^ 1074
        ∧ Normalize Real.sqrt (Origin : V ℝ) = Origin) := by
  refine ⟨by decide!, ?_, ?_, ?_⟩
  · have hL : Length Real.sqrt (Origin : V ℝ) = 0 := by
      simp [Length, Distance, DistanceSquared, Origin]
    rw [hL, zero_add]
    unfold SmallestNonzeroFloat64
    rw [show (1074 : ℕ) = 1022 + 52 from rfl, pow_add]
    field_simp
  · unfold MaxFloat64
    have h52 : (0 : ℝ) < 1 / 2 ^ 52 := by positivity
    have h1023 : (0 : ℝ) < 2 ^ 1023 := by positivity
    calc (2 : ℝ) ^ 1023 * (1 + (1 - 1 / 2 ^ 52)) < 2 ^ 1023 * 2 := by
          apply mul_lt_mul_of_pos_left _ h1023
          linarith
      _ = 2 ^ 1024 := by rw [← pow_succ]
      _ ≤ 2 ^ 1074 := pow_le_pow_right₀ (by norm_num) (by norm_num)
  · simp [Normalize, Mult, Origin]

/-- C18: for all vectors `a`, `b`, `ToComplex (Rotate a b)` is the complex product
`ToComplex a * ToComplex b`, `ToComplex (Unrotate a b)` is the product of
`ToComplex a` with the complex conjugate of `ToComplex b`, and
`FromComplex (ToComplex v) = v` for every `v`. -/
theorem C18_rotate_is_complex_mul (a b v : V ℝ) :
    ToComplex (Rotate a b) = ToComplex a * ToComplex b
      ∧ ToComplex (Unrotate a b) = ToComplex a * (starRingEnd ℂ) (ToComplex b)
      ∧ FromComplex (ToComplex v) = v := by
  refine ⟨?_, ?_, rfl⟩
  · apply Complex.ext
    · simp [ToComplex, Rotate]
    · simp [ToComplex, Rotate]
  · apply Complex.ext
    · simp [ToComplex, Unrotate]
    · simp [ToComplex, Unrotate]
      ring

/-- C20 (as stated, refuted): in binary64, the distinct points `(1e-200, 0)` and
`(0, 0)` have `Distance` `0` (the square underflows); and at `a = (1, 0)`,
`b = (0.9, 0)`, `c = (0.2, 0)`, `Distance a c = 0.8` is more than
`Distance a b + Distance b c = 0.09999999999999998 + 0.7 = 0.7999999999999999`. -/
theorem C20_distance_not_metric :
    Binary64.eq (1e-200 : Binary64) 0 = false
      ∧ Distance Binary64.sqrt (⟨1e-200, 0⟩ : V Binary64) ⟨0, 0⟩ = 0
      ∧ Distance Binary64.sqrt (⟨1, 0⟩ : V Binary64) ⟨0.2, 0⟩ = 0.8
      ∧ Distance Binary64.sqrt (⟨1, 0⟩ : V Binary64) ⟨0.9, 0⟩ = 0.09999999999999998
      ∧ Distance Binary64.sqrt (⟨0.9, 0⟩ : V Binary64) ⟨0.2, 0⟩ = 0.7
      ∧ Distance Binary64.sqrt (⟨1, 0⟩ : V Binary64) ⟨0.9, 0⟩
          + Distance Binary64.sqrt (⟨0.9, 0⟩ : V Binary64) ⟨0.2, 0⟩ = 0.7999999999999999
      ∧ ¬ (Distance Binary64.sqrt (⟨1, 0⟩ : V Binary64) ⟨0.2, 0⟩
            ≤ Distance Binary64.sqrt (⟨1, 0⟩ : V Binary64) ⟨0.9, 0⟩
              + Distance Binary64.sqrt (⟨0.9, 0⟩ : V Binary64) ⟨0.2, 0⟩) := by
  decide!

/-- C20 (amended): in exact real arithmetic `Distance` is a metric: for all `a`, `b`,
`c`, `Distance a b ≥ 0`,
`Distance a b = 0` only if `a = b` (and if `a = b`), and
`Distance a c ≤ Distance a b + Distance b c`. -/
theorem C20_distance_metric (a b c : V ℝ) :
    0 ≤ Distance Real.sqrt a b
      ∧ (Distance Real.sqrt a b = 0 → a = b)
      ∧ (a = b → Distance Real.sqrt a b = 0)
      ∧ Distance Real.sqrt a c ≤ Distance Real.sqrt a b + Distance Real.sqrt b c := by
  refine ⟨Real.sqrt_nonneg _, ?_, ?_, ?_⟩
  · intro h
    rw [distance_eq_abs, map_eq_zero, sub_eq_zero] at h
    obtain ⟨ax, ay⟩ := a
    obtain ⟨bx, bz⟩ := b
    have hre := congrArg Complex.re h
    have him := congrArg Complex.im h
    simp only [ToComplex] at hre him
    rw [hre, him]
  · intro h
    rw [h, distance_eq_abs, sub_self, map_zero]
  · rw [distance_eq_abs, distance_eq_abs, distance_eq_abs]
    exact Complex.abs.sub_le _ _ _

end vect
